/-
  Verification of the computational content of the jdat_notebooks repository
  (NIRISS WFSS post-pipeline notebook 01 "Combine and normalize 1D spectra",
  the table-of-contents configuration files, and the tutorial error-handling
  pattern).

  Numeric arrays are embedded as lists (or index functions) over the
  rationals; the numpy and scipy primitives the notebook calls are embedded
  faithfully (np.interp with edge clamping, scipy.integrate.simpson with the
  composite non-uniform rule and the even-sample correction, boolean mask
  indexing).  Operations that may raise in numpy (np.max and np.min of an
  empty array) are embedded as Option-returning functions.
-/
import Mathlib

namespace Jdat

/-- The numpy interp function on a list of (x, y) sample points: clamps to
the first value below the grid and to the last value above it, linear
interpolation between bracketing points.  An empty grid is unreachable in
the calls made by the notebook. -/
def npInterp (t : ℚ) : List (ℚ × ℚ) → ℚ
  | [] => 0
  | [(_, y0)] => y0
  | (x0, y0) :: (x1, y1) :: rest =>
      if t < x0 then y0
      else if t ≤ x1 then y0 + (y1 - y0) * (t - x0) / (x1 - x0)
      else npInterp t ((x1, y1) :: rest)

/-- numpy boolean-mask indexing `vals[mask]`. -/
def maskSelect (mask : List Bool) (vals : List ℚ) : List ℚ :=
  ((mask.zip vals).filter (fun p => p.1)).map (fun p => p.2)

/-- An elementwise numpy expression over arrays of common length n,
given by the value at each index. -/
def elementwise (n : ℕ) (g : ℕ → ℚ) : List ℚ :=
  (List.range n).map g

/-- One term of the scipy composite Simpson rule for unevenly spaced
samples (the basic rule): the contribution of the interval pair
[x i, x (i+2)].  The guarded divisions of scipy (true_divide with a zero
fill where the denominator vanishes) coincide with rational division,
which yields 0 on a zero denominator. -/
def simpsonTerm (x y : List ℚ) (i : ℕ) : ℚ :=
  let h0 := x.getD (i + 1) 0 - x.getD i 0
  let h1 := x.getD (i + 2) 0 - x.getD (i + 1) 0
  let hsum := h0 + h1
  let hprod := h0 * h1
  let h0divh1 := h0 / h1
  hsum / 6 * (y.getD i 0 * (2 - 1 / h0divh1)
    + y.getD (i + 1) 0 * (hsum * hsum / hprod)
    + y.getD (i + 2) 0 * (2 - h0divh1))

/-- scipy `_basic_simpson(y, start, stop, x)`: sum of `simpsonTerm` over
`i in range(start, stop, 2)`, i.e. over the `(stop - start + 1) / 2`
indices start, start + 2, .... -/
def basicSimpson (x y : List ℚ) (start stop : ℕ) : ℚ :=
  ((List.range' start ((stop - start + 1) / 2) 2).map (simpsonTerm x y)).sum

/-- The scipy simpson integrator, simpson(y, x=x), for N = x.length
sample points:
odd N is the plain composite rule; even N ≥ 4 integrates the first N-1
points with the composite rule and the last interval with the asymmetric
(Cartwright) correction; N = 2 is the trapezoid rule. -/
def simpson (y x : List ℚ) : ℚ :=
  let N := x.length
  if N % 2 = 0 then
    if N = 2 then
      (x.getD 1 0 - x.getD 0 0) / 2 * (y.getD 1 0 + y.getD 0 0)
    else
      let h0 := x.getD (N - 2) 0 - x.getD (N - 3) 0
      let h1 := x.getD (N - 1) 0 - x.getD (N - 2) 0
      let alpha := (2 * h1 ^ 2 + 3 * h0 * h1) / (6 * (h1 + h0))
      let beta := (h1 ^ 2 + 3 * h0 * h1) / (6 * h0)
      let eta := h1 ^ 3 / (6 * h0 * (h0 + h1))
      alpha * y.getD (N - 1) 0 + beta * y.getD (N - 2) 0
        - eta * y.getD (N - 3) 0 + basicSimpson x y 0 (N - 3)
  else basicSimpson x y 0 (N - 2)

/-- The filter response interpolated onto the wavelength axis of the
spectrum:
`filt_int = np.interp(lamS, lamF, filt)` inside `filconv`. -/
def filtInt (lfil ffil l0 : List ℚ) : List ℚ :=
  l0.map (fun w => npInterp w (lfil.zip ffil))

/-- The fnu part of `filconv`: numerator integral
`I1 = simpson(spec / lamS**2 * c * filt_int * lamS, x=lamS)`, denominator
`I2 = simpson(filt_int / lamS, x=lamS)`, and `fnu = I1 / I2 / c`; when the
spectrum arrays are empty the notebook sets `fnu = 0`. -/
def filconvFnu (lfil ffil l0 f0 : List ℚ) (c : ℚ) : ℚ :=
  let fi := filtInt lfil ffil l0
  if 0 < l0.length then
    let I1 := simpson (elementwise l0.length
      (fun i => f0.getD i 0 / (l0.getD i 0) ^ 2 * c * fi.getD i 0
        * l0.getD i 0)) l0
    let I2 := simpson (elementwise l0.length
      (fun i => fi.getD i 0 / l0.getD i 0)) l0
    I1 / I2 / c
  else 0

/-- The half-maximum selection `lfil[ffil > np.max(ffil)/2]` of `filconv`. -/
def filconvSel (lfil ffil : List ℚ) (mx : ℚ) : List ℚ :=
  maskSelect (ffil.map (fun v => decide (mx / 2 < v))) lfil

/-- The `filconv(lfil, ffil, l0, f0, DIR, c)` helper of the notebook,
returning `(lcen, fnu)`.  `np.max` of an empty filter curve and `np.min` /
`np.max` of an empty half-maximum selection raise in numpy, embedded here as
`none`. -/
def filconv (lfil ffil l0 f0 : List ℚ) (c : ℚ) : Option (ℚ × ℚ) :=
  match ffil.max? with
  | none => none
  | some mx =>
    let sel := filconvSel lfil ffil mx
    match sel.min?, sel.max? with
    | some lfwhml, some lfwhmr =>
        some ((lfwhmr + lfwhml) / 2, filconvFnu lfil ffil l0 f0 c)
    | some _, none => none
    | none, _ => none

/-- The default value of the filconv speed-of-light parameter, 3e18
(exact as a double). -/
def cDefault : ℚ := 3 * 10 ^ 18

/-- The combined flux at wavelength index ii:
`np.sum(flux[:, ii] * 1 / flux_err[:, ii]**2) / np.sum(1 / flux_err[:, ii]**2)`,
with the dither axis of the 2D arrays embedded as the first argument of an
index function and `nd` the number of dithers. -/
def flux_combine (nd : ℕ) (flux flux_err : ℕ → ℕ → ℚ) (ii : ℕ) : ℚ :=
  (∑ d ∈ Finset.range nd, flux d ii * 1 / flux_err d ii ^ 2) /
    (∑ d ∈ Finset.range nd, 1 / flux_err d ii ^ 2)

/-- The per-dither columns read from one `_1d_opt.fits` file: the
wavelength, flux and uncertainty columns of the FITS table. -/
structure DitherData where
  wavelength : List ℚ
  flux : List ℚ
  uncertainty : List ℚ
deriving DecidableEq

/-- The call np.interp(wave, wave_tmp, flux_tmp): the flux of the dither
resampled onto the reference grid. -/
def resampleFlux (wave : List ℚ) (d : DitherData) : List ℚ :=
  wave.map (fun w => npInterp w (d.wavelength.zip d.flux))

/-- The call np.interp(wave, wave_tmp, flux_err_tmp**2): the variance
(squared uncertainty) of the dither resampled onto the reference grid; the
notebook stores its square root. -/
def resampleVariance (wave : List ℚ) (d : DitherData) : List ℚ :=
  wave.map (fun w =>
    npInterp w (d.wavelength.zip (d.uncertainty.map (fun e => e ^ 2))))

/-- The list r is the elementwise nonnegative square root of the list v
(the exact-real reading of np.sqrt, which has no computable image inside
the rationals). -/
def isSqrtOf (r v : List ℚ) : Bool :=
  decide (r.length = v.length) &&
    (List.range v.length).all (fun i =>
      decide (0 ≤ r.getD i 0) && decide (r.getD i 0 ^ 2 = v.getD i 0))

/-- The dither-loading loop of the notebook: dither 0 supplies the
reference wavelength grid and its flux/uncertainty rows verbatim; the flux row of
every later dither is resampled by np.interp onto the reference grid and
its uncertainty row is np.sqrt of the np.interp of the squared
uncertainties.  `flux` and `err` are the rows of the 2D arrays after the
loop. -/
def loadDithersOk (ds : List DitherData) (wave : List ℚ)
    (flux err : List (List ℚ)) : Bool :=
  match ds with
  | [] => false
  | d0 :: _ =>
    decide (wave = d0.wavelength) &&
    decide (flux.length = ds.length) && decide (err.length = ds.length) &&
    decide (d0.flux.length = wave.length) &&
    decide (d0.uncertainty.length = wave.length) &&
    decide (flux.getD 0 [] = d0.flux) &&
    decide (err.getD 0 [] = d0.uncertainty) &&
    (List.range ds.length).all (fun d =>
      decide (d = 0) ||
      (decide (flux.getD d [] = resampleFlux wave (ds.getD d ⟨[], [], []⟩)) &&
       isSqrtOf (err.getD d []) (resampleVariance wave (ds.getD d ⟨[], [], []⟩))))

/-- The normalization factor Cnorm = fd_cat[F<filter>][iix] / fnu. -/
def Cnorm (catFlux fnu : ℚ) : ℚ := catFlux / fnu

/-- specutils uncertainty wrapper used by the notebook. -/
inductive Uncertainty
  | StdDevUncertainty (values : List ℚ)
deriving DecidableEq

/-- The fields of the `Spectrum` instance the notebook constructs. -/
structure SpectrumObj where
  spectral_axis : List ℚ
  flux : List ℚ
  uncertainty : Uncertainty
deriving DecidableEq

/-- A call to `Spectrum(...).write(file_1d, format=..., overwrite=...)`. -/
structure WriteCall where
  spec : SpectrumObj
  path : String
  format : String
  overwrite : Bool

/-- The write step of the notebook:
obs = Spectrum(spectral_axis=wave*u.um, flux=flux_combine * Cnorm * u.dimensionless_unscaled,
uncertainty=StdDevUncertainty(flux_err_combine * Cnorm), unit=empty)
followed by obs.write(file_1d, format=tabular-fits, overwrite=True). -/
def writeNormalizedSpectrum (file_1d : String)
    (wave fluxCombineArr fluxErrCombineArr : List ℚ) (cnorm : ℚ) : WriteCall :=
  { spec := { spectral_axis := wave
            , flux := fluxCombineArr.map (fun v => v * cnorm)
            , uncertainty := Uncertainty.StdDevUncertainty
                (fluxErrCombineArr.map (fun v => v * cnorm)) }
  , path := file_1d
  , format := "tabular-fits"
  , overwrite := true }

/-- The scalar string fields of one parsed YAML mapping entry, in file
order. -/
abbrev RawFields := List (String × String)

/-- One entry of the `parts:` list of a Jupyter Book TOC file: its scalar
fields (e.g. `caption`) and the scalar fields of each entry of its
`chapters:` list. -/
structure TocPart where
  scalars : RawFields
  chapters : List RawFields

/-- A parsed Jupyter Book TOC file: top-level scalar fields and the
`parts:` list. -/
structure TocFile where
  scalars : RawFields
  parts : List TocPart

/-- The mapping carries the key `k`. -/
def hasField (m : RawFields) (k : String) : Bool :=
  m.any (fun p => p.1 == k)

/-- Every part carries a caption and every chapter entry carries both a
file and a title field. -/
def tocWellFormed (t : TocFile) : Bool :=
  t.parts.all (fun p =>
    hasField p.scalars ("caption") &&
      p.chapters.all (fun ch => hasField ch ("file") && hasField ch ("title")))

/-- Transcription of the published-book TOC file, entry by entry
(YAML comment lines are not entries). -/
def tocMain : TocFile :=
  { scalars := [("format", "jb-book"), ("root", "intro")]
  , parts :=
    [ { scalars := [("caption", "Cross-Instrument")]
      , chapters :=
        [ [("file", "notebooks/asdf_example/asdf_example.ipynb"),
           ("title", "ASDF Example")]
        , [("file", "notebooks/background_estimation_imaging/Imaging Sky Background Estimation.ipynb"),
           ("title", "Complex 2D Background")]
        , [("file", "notebooks/composite_model_fitting/specfit_demo_3.ipynb"),
           ("title", "Composite Model Spectral Fitting")]
        , [("file", "notebooks/NIRSpec_MAST_Query/NIRSpec_MAST_Query.ipynb"),
           ("title", "MAST Query")]
        , [("file", "notebooks/specviz_notebookGUI_interaction/specviz_notebook_gui_interaction_redshift.ipynb"),
           ("title", "Specviz Simple Demo")] ] }
    , { scalars := [("caption", "MIRI")]
      , chapters :=
        [ [("file", "notebooks/MRS_Mstar_analysis/JWST_Mstar_dataAnalysis_runpipeline.ipynb"),
           ("title", "MRS Pipeline")]
        , [("file", "notebooks/MRS_Mstar_analysis/JWST_Mstar_dataAnalysis_analysis.ipynb"),
           ("title", "Data Analysis")]
        , [("file", "notebooks/MIRI_IFU_YSOs_in_the_LMC/isha_nayak_ysos_in_the_lmc.ipynb"),
           ("title", "IFU of YSOs in LMC")]
        , [("file", "notebooks/MIRI_LRS_spectral_extraction/miri_lrs_spectral_extraction.ipynb"),
           ("title", "LRS Extraction")] ] }
    , { scalars := [("caption", "NIRCam")]
      , chapters :=
        [ [("file", "notebooks/aperture_photometry/NIRCam_Aperture_Photometry_Example.ipynb"),
           ("title", "Point Source Aperture Photometry")]
        , [("file", "notebooks/NIRCam_photometry/NIRCam multiband photometry.ipynb"),
           ("title", "Extended Aperture Photometry")]
        , [("file", "notebooks/psf_photometry/NIRCam_PSF_Photometry_Example.ipynb"),
           ("title", "PSF Photometry")]
        , [("file", "notebooks/NIRCam_PSF-matched_photometry/NIRCam_PSF_matched_multiband_photometry.ipynb"),
           ("title", "Cross-Filter PSF Matching")]
        , [("file", "https://github.com/spacetelescope/jdat_notebooks/tree/main/notebooks/preimaging"),
           ("title", "Preimaging - MIRAGE")]
        , [("file", "notebooks/preimaging/preimaging_02_calwebb.ipynb"),
           ("title", "Preimaging - Calwebb")]
        , [("file", "notebooks/preimaging/preimaging_03_association.ipynb"),
           ("title", "Preimaging - Association")] ] }
    , { scalars := [("caption", "NIRISS")]
      , chapters :=
        [ [("file", "notebooks/NIRISS_WFSS_postpipeline/00. Optimal extraction.ipynb"),
           ("title", "WFSS Spectra - Optimal Extraction")]
        , [("file", "notebooks/NIRISS_WFSS_postpipeline/01. Combine and normalize 1D spectra.ipynb"),
           ("title", "WFSS Spectra - Combine and Normalize 1D Spectra")]
        , [("file", "notebooks/NIRISS_WFSS_postpipeline/02. Cross correlation template.ipynb"),
           ("title", "WFSS Spectra - Cross-Correlation Template")]
        , [("file", "notebooks/NIRISS_WFSS_postpipeline/03. Spatially resolved emission line map.ipynb"),
           ("title", "WFSS Spectra - Emission Line Map")]
        , [("file", "notebooks/niriss_ami_binary/1_niriss_ami_binary.ipynb"),
           ("title", "AMI Binary Star 1")]
        , [("file", "notebooks/niriss_ami_binary/2_niriss_ami_binary.ipynb"),
           ("title", "AMI Binary Star Notebook 2")]
        , [("file", "notebooks/soss-transit-spectroscopy/HAT-P-1b-PART3-data-analysis.ipynb"),
           ("title", "SOSS Transient Spectroscopy")] ] }
    , { scalars := [("caption", "NIRSpec")]
      , chapters :=
        [ [("file", "notebooks/IFU_cube_continuum_fit/NGC4151_FeII_ContinuumFit.ipynb"),
           ("title", "IFU Cube Fitting")]
        , [("file", "notebooks/ifu_optimal/ifu_optimal.ipynb"),
           ("title", "MOS Optimal Extraction")]
        , [("file", "notebooks/mos-spectroscopy/MOSspec_sv06_revised.ipynb"),
           ("title", "MOS Spectroscopy of Extragalactic Field")]
        , [("file", "notebooks/transit_spectroscopy_notebook/Exoplanet_Transmission_Spectra_JWST.ipynb"),
           ("title", "Transient Spectroscopy")] ] } ] }

/-- The developer-documentation `toc.yml` (the unnamed source file),
transcribed entry by entry; the commented-out "Developers and Staff" part
is a YAML comment, not an entry, and the nested `defaults:` mapping is
flattened to a dotted scalar key. -/
def tocDocs : TocFile :=
  { scalars := [("format", "jb-book"), ("root", "intro"),
                ("defaults.titlesonly", "True")]
  , parts :=
    [ { scalars := [("caption", "General")]
      , chapters :=
        [ [("file", "index.rst"), ("title", "Home")]
        , [("file", "install.rst"), ("title", "Installation")]
        , [("file", "docs/notebook_development_workflow.rst"),
           ("title", "Notebook Development Workflow")] ] }
    , { scalars := [("caption", "Development")]
      , chapters :=
        [ [("file", "docs/submitting_notebooks.rst"),
           ("title", "Submitting Notebooks")]
        , [("file", "docs/requirements.rst"), ("title", "Requirements file")]
        , [("file", "docs/notebooks.rst"), ("title", "Jupyter Notebooks")]
        , [("file", "docs/data_files.rst"), ("title", "Data Files")] ] }
    , { scalars := [("caption", "GitHub Guidelines")]
      , chapters :=
        [ [("file", "docs/github_setup.rst"), ("title", "GitHub Setup")]
        , [("file", "docs/github_workflow.rst"), ("title", "GitHub Workflow")]
        , [("file", "docs/github_pr.rst"), ("title", "GitHub PR")] ] }
    , { scalars := [("caption", "Cross-Instrument")]
      , chapters :=
        [ [("file", "notebooks/cross_instrument/asdf_example/asdf_example.ipynb"),
           ("title", "ASDF Example")]
        , [("file", "notebooks/cross_instrument/background_estimation_imaging/Imaging_Sky_Background_Estimation.ipynb"),
           ("title", "Complex 2D Background")]
        , [("file", "notebooks/cross_instrument/composite_model_fitting/specfit_demo_3.ipynb"),
           ("title", "Composite Model Spectral Fitting")]
        , [("file", "notebooks/cross_instrument/rgb_imviz/imviz_rgb_carina.ipynb"),
           ("title", "RGB images with Imviz")]
        , [("file", "notebooks/cross_instrument/specviz_notebookGUI_interaction/specviz_notebook_gui_interaction_redshift.ipynb"),
           ("title", "Specviz Simple Demo")]
        , [("file", "notebooks/cross_instrument/update_pure_parallel_wcs/NIRISS_correct_pure_parallel_WCS.ipynb"),
           ("title", "Improving Accuracy of WCS of Pure Parallel Dataset")]
        , [("file", "notebooks/cross_instrument/stpsf_examples/stpsf_examples.ipynb"),
           ("title", "STPSF Examples")] ] }
    , { scalars := [("caption", "MIRI")]
      , chapters :=
        [ [("file", "notebooks/MIRI/MRS_Mstar_analysis/JWST_Mstar_dataAnalysis_analysis.ipynb"),
           ("title", "MRS Mstar - Data Analysis")]
        , [("file", "notebooks/MIRI/MIRI_IFU_YSOs_in_the_LMC/isha_nayak_ysos_in_the_lmc.ipynb"),
           ("title", "IFU of YSOs in LMC")]
        , [("file", "notebooks/MIRI/MIRI_LRS_spectral_extraction/miri_lrs_advanced_extraction_part1.ipynb"),
           ("title", "LRS Optimal Spectral Extraction")] ] }
    , { scalars := [("caption", "NIRCam")]
      , chapters :=
        [ [("file", "notebooks/NIRCam/aperture_photometry/NIRCam_Aperture_Photometry_Example.ipynb"),
           ("title", "Point Source Aperture Photometry")]
        , [("file", "notebooks/NIRCam/NIRCam_photometry/NIRCam_multiband_photometry.ipynb"),
           ("title", "Extended Aperture Photometry")]
        , [("file", "notebooks/NIRCam/NIRCam_PSF-matched_photometry/NIRCam_PSF_matched_multiband_photometry.ipynb"),
           ("title", "Cross-Filter PSF Matching")]
        , [("file", "notebooks/NIRCam/psf_photometry/NIRCam_PSF_Photometry_Example.ipynb"),
           ("title", "PSF Photometry")]
        , [("file", "notebooks/NIRCam/NIRCam_wisp_subtraction/nircam_wisp_subtraction.ipynb"),
           ("title", "NIRCam Wisp Removal")]
        , [("file", "notebooks/NIRCam/NIRCam_claw_detection/nircam_claw_detection.ipynb"),
           ("title", "NIRCam Claw Detection")] ] }
    , { scalars := [("caption", "NIRISS")]
      , chapters :=
        [ [("file", "notebooks/NIRISS/NIRISS_WFSS_postpipeline/00_Optimal_extraction.ipynb"),
           ("title", "WFSS Spectra - Optimal Extraction")]
        , [("file", "notebooks/NIRISS/NIRISS_WFSS_postpipeline/01_Combine_and_normalize_1D_spectra.ipynb"),
           ("title", "WFSS Spectra - Combine and Normalize 1D Spectra")]
        , [("file", "notebooks/NIRISS/NIRISS_WFSS_postpipeline/02_Cross_correlation_template.ipynb"),
           ("title", "WFSS Spectra - Cross-Correlation Template")]
        , [("file", "notebooks/NIRISS/NIRISS_WFSS_postpipeline/03_Spatially_resolved_emission_line_map.ipynb"),
           ("title", "WFSS Spectra - Emission Line Map")]
        , [("file", "notebooks/NIRISS/NIRISS_WFSS_advanced/00_niriss_mast_query_data_setup.ipynb"),
           ("title", "NIRISS MAST")]
        , [("file", "notebooks/NIRISS/NIRISS_WFSS_advanced/01_niriss_wfss_image2_image3.ipynb"),
           ("title", "Direct imaging for WFSS")]
        , [("file", "notebooks/NIRISS/NIRISS_WFSS_advanced/02_niriss_wfss_spec2.ipynb"),
           ("title", "Spec2 pipeline for WFSS")] ] }
    , { scalars := [("caption", "NIRSpec")]
      , chapters :=
        [ [("file", "notebooks/NIRSpec/IFU_cube_continuum_fit/NGC4151_FeII_ContinuumFit.ipynb"),
           ("title", "IFU Background Subtraction")]
        , [("file", "notebooks/NIRSpec/cube_fitting/cube_fitting.ipynb"),
           ("title", "IFU Cube Modeling")]
        , [("file", "notebooks/NIRSpec/ifu_optimal/ifu_optimal.ipynb"),
           ("title", "IFU Optimal Spectral Extraction")]
        , [("file", "notebooks/NIRSpec/optimal_extraction/Spectral_Extraction-static.ipynb"),
           ("title", "MOS Optimal Extraction")]
        , [("file", "notebooks/NIRSpec/mos_spectroscopy_advanced/MOSspec_advanced.ipynb"),
           ("title", "MOS Spectroscopy of Extragalactic Field")]
        , [("file", "notebooks/NIRSpec/transit_spectroscopy_notebook/Exoplanet_Transmission_Spectra_JWST.ipynb"),
           ("title", "BOTS Time Series Observations")]
        , [("file", "notebooks/NIRSpec/galaxy_redshift/redshift_fitting.ipynb"),
           ("title", "Redshift and Template Fitting")]
        , [("file", "notebooks/NIRSpec/NIRSpec_NSClean/FS_NSClean_example.ipynb"),
           ("title", "FS Products with NSClean")]
        , [("file", "notebooks/NIRSpec/NIRSpec_NSClean/IFU_NSClean_example.ipynb"),
           ("title", "IFU Products with NSClean")]
        , [("file", "notebooks/NIRSpec/NIRSpec_NSClean/MOS_NSClean_example.ipynb"),
           ("title", "MOS Products with NSClean")]
        , [("file", "notebooks/NIRSpec/NIRSpec_NSClean/BOTS_NSClean_example.ipynb"),
           ("title", "BOTS Products with NSClean")] ] } ] }

/-- A fragment of Python statement structure, enough to express the
tutorial branching pattern of the notebooks. -/
inductive PyStmt
  | assign (lhs rhs : String)
  | exprStmt (code : String)
  | tryExcept (body handler : List PyStmt)
  | ifStmt (cond : String) (body : List PyStmt)

/-- The statement is a try/except block. -/
def isTryExcept : PyStmt → Bool
  | .tryExcept _ _ => true
  | _ => false

/-- The subset-selection cell of the redshift-fitting notebook:
"Create a subset in the area of interest if it has not been created
manually" — the optional manual step is guarded by try/except and the
narrative branches on the resulting flag. -/
def subsetSelectionCell : List PyStmt :=
  [ PyStmt.tryExcept
      [ PyStmt.assign ("region1")
          ("viz2.get_spectra(data_label=\x27spectrum continuum subtracted\x27, subset_to_apply=\x27Subset 1\x27)")
      , PyStmt.exprStmt ("print(region1)")
      , PyStmt.assign ("region1_exists") ("True") ]
      [ PyStmt.exprStmt ("print(\x22There are no subsets selected.\x22)")
      , PyStmt.assign ("region1_exists") ("False") ]
  , PyStmt.ifStmt ("region1_exists is False")
      [ PyStmt.assign ("sv") ("viz2.app.get_viewer(\x27spectrum-viewer\x27)")
      , PyStmt.assign ("sv.toolbar_active_subset.selected") ("[]")
      , PyStmt.exprStmt ("sv.apply_roi(XRangeROI(2.24, 3.13))") ] ]

/-! ## Helper lemmas -/

lemma sum_map_mul_const (L : List ℕ) (f g : ℕ → ℚ) (k : ℚ)
    (h : ∀ i, f i = k * g i) : (L.map f).sum = k * (L.map g).sum := by
  induction L with
  | nil => simp
  | cons a t ih => simp only [List.map_cons, List.sum_cons, ih, h a]; ring

lemma simpsonTerm_smul (x y y₂ : List ℚ) (k : ℚ)
    (h : ∀ i, y.getD i 0 = k * y₂.getD i 0) (i : ℕ) :
    simpsonTerm x y i = k * simpsonTerm x y₂ i := by
  unfold simpsonTerm
  simp only [h i, h (i + 1), h (i + 2)]
  ring

lemma basicSimpson_smul (x y y₂ : List ℚ) (k : ℚ)
    (h : ∀ i, y.getD i 0 = k * y₂.getD i 0) (s t : ℕ) :
    basicSimpson x y s t = k * basicSimpson x y₂ s t := by
  unfold basicSimpson
  exact sum_map_mul_const _ _ _ k (simpsonTerm_smul x y y₂ k h)

/-- The scipy simpson rule is linear in the sample values: scaling every
y sample by k scales the integral by k. -/
lemma simpson_smul (x y y₂ : List ℚ) (k : ℚ)
    (h : ∀ i, y.getD i 0 = k * y₂.getD i 0) :
    simpson y x = k * simpson y₂ x := by
  unfold simpson
  simp only []
  split_ifs with h2 h3
  · rw [h 0, h 1]; ring
  · rw [h _, h _, h _, basicSimpson_smul x y y₂ k h]; ring
  · exact basicSimpson_smul x y y₂ k h 0 (x.length - 2)

lemma getD_map_mul_const (k : ℚ) (l : List ℚ) (i : ℕ) :
    (l.map (fun v => k * v)).getD i 0 = k * l.getD i 0 := by
  simp only [List.getD_eq_getElem?_getD, List.getElem?_map]
  cases l[i]? <;> simp

lemma elementwise_getD (n : ℕ) (g : ℕ → ℚ) (i : ℕ) :
    (elementwise n g).getD i 0 = if i < n then g i else 0 := by
  unfold elementwise
  simp only [List.getD_eq_getElem?_getD, List.getElem?_map]
  by_cases hi : i < n
  · rw [List.getElem?_range hi]; simp [hi]
  · rw [List.getElem?_eq_none (by simpa using Nat.le_of_not_lt hi)]; simp [hi]

/-- The fnu part of filconv is homogeneous in the spectrum flux. -/
lemma filconvFnu_smul (lfil ffil l0 f0 : List ℚ) (c k : ℚ) :
    filconvFnu lfil ffil l0 (f0.map (fun v => k * v)) c
      = k * filconvFnu lfil ffil l0 f0 c := by
  unfold filconvFnu
  simp only []
  split_ifs with hl
  · have hy : ∀ i, (elementwise l0.length
        (fun j => (f0.map (fun v => k * v)).getD j 0 / l0.getD j 0 ^ 2 * c
          * (filtInt lfil ffil l0).getD j 0 * l0.getD j 0)).getD i 0
        = k * (elementwise l0.length
        (fun j => f0.getD j 0 / l0.getD j 0 ^ 2 * c
          * (filtInt lfil ffil l0).getD j 0 * l0.getD j 0)).getD i 0 := by
      intro i
      rw [elementwise_getD, elementwise_getD]
      split_ifs with hi
      · rw [getD_map_mul_const]; ring
      · ring
    rw [simpson_smul _ _ _ k hy]
    ring
  · ring

/-- The fnu part of filconv does not depend on the c parameter when it is
nonzero: c scales the numerator integral linearly and is divided out
again. -/
lemma filconvFnu_c_cancel (lfil ffil l0 f0 : List ℚ) (c : ℚ) (hc : c ≠ 0) :
    filconvFnu lfil ffil l0 f0 c = filconvFnu lfil ffil l0 f0 cDefault := by
  unfold filconvFnu
  simp only []
  split_ifs with hl
  · have key : ∀ e : ℚ, e ≠ 0 →
        simpson (elementwise l0.length
          (fun j => f0.getD j 0 / l0.getD j 0 ^ 2 * e
            * (filtInt lfil ffil l0).getD j 0 * l0.getD j 0)) l0 /
        simpson (elementwise l0.length
          (fun j => (filtInt lfil ffil l0).getD j 0 / l0.getD j 0)) l0 / e
        = simpson (elementwise l0.length
          (fun j => f0.getD j 0 / l0.getD j 0 ^ 2
            * (filtInt lfil ffil l0).getD j 0 * l0.getD j 0)) l0 /
        simpson (elementwise l0.length
          (fun j => (filtInt lfil ffil l0).getD j 0 / l0.getD j 0)) l0 := by
      intro e he
      have hy : ∀ i, (elementwise l0.length
          (fun j => f0.getD j 0 / l0.getD j 0 ^ 2 * e
            * (filtInt lfil ffil l0).getD j 0 * l0.getD j 0)).getD i 0
          = e * (elementwise l0.length
          (fun j => f0.getD j 0 / l0.getD j 0 ^ 2
            * (filtInt lfil ffil l0).getD j 0 * l0.getD j 0)).getD i 0 := by
        intro i
        rw [elementwise_getD, elementwise_getD]
        split_ifs with hi
        · ring
        · ring
      rw [simpson_smul _ _ _ e hy, mul_div_assoc, mul_div_cancel_left₀ _ he]
    rw [key c hc, key cDefault (by norm_num [cDefault])]
  · rfl

/-- The description of the half-maximum selection used by the claim: the
wavelengths
`lfil[i]` whose response `ffil[i]` strictly exceeds half of the maximum
response mx. -/
def fwhmWavelengths (lfil ffil : List ℚ) (mx : ℚ) : List ℚ :=
  ((lfil.zip ffil).filter (fun p => decide (mx / 2 < p.2))).map Prod.fst

lemma maskSelect_eq_zip_filter (P : ℚ → Bool) (lfil ffil : List ℚ) :
    maskSelect (ffil.map P) lfil
      = ((lfil.zip ffil).filter (fun p => P p.2)).map Prod.fst := by
  induction lfil generalizing ffil with
  | nil => cases ffil <;> rfl
  | cons x xs ih =>
    cases ffil with
    | nil => rfl
    | cons v vs =>
      have ih2 := ih vs
      simp only [maskSelect] at ih2 ⊢
      simp only [List.map_cons, List.zip_cons_cons, List.filter_cons]
      by_cases hv : P v <;> simp [hv, ih2]

/-- The half-maximum selection of filconv is the set of wavelengths
described in the claim. -/
lemma filconvSel_eq_fwhmWavelengths (lfil ffil : List ℚ) (mx : ℚ) :
    filconvSel lfil ffil mx = fwhmWavelengths lfil ffil mx := by
  unfold filconvSel fwhmWavelengths
  exact maskSelect_eq_zip_filter (fun v => decide (mx / 2 < v)) lfil ffil

lemma exists_mem_zip_right (mx : ℚ) (l f : List ℚ)
    (hlen : l.length = f.length) (hmem : mx ∈ f) :
    ∃ x, (x, mx) ∈ l.zip f := by
  induction l generalizing f with
  | nil =>
    cases f with
    | nil => simp at hmem
    | cons v vs => simp at hlen
  | cons a t ih =>
    cases f with
    | nil => simp at hmem
    | cons v vs =>
      rcases List.mem_cons.mp hmem with h1 | h2
      · exact ⟨a, by simp [h1]⟩
      · obtain ⟨x, hx⟩ := ih vs (by simpa using hlen) h2
        exact ⟨x, by simp [List.zip_cons_cons, hx]⟩

/-- A positive maximal response survives its own half-maximum cut, so the
selection is non-empty. -/
lemma filconvSel_ne_nil (lfil ffil : List ℚ) (mx : ℚ)
    (hlen : lfil.length = ffil.length) (hmx : ffil.max? = some mx)
    (hpos : 0 < mx) : filconvSel lfil ffil mx ≠ [] := by
  have hmem : mx ∈ ffil := List.max?_mem (fun a b => max_choice a b) hmx
  obtain ⟨x, hx⟩ := exists_mem_zip_right mx lfil ffil hlen hmem
  rw [filconvSel_eq_fwhmWavelengths]
  intro hnil
  have hxin : x ∈ fwhmWavelengths lfil ffil mx := by
    unfold fwhmWavelengths
    exact List.mem_map_of_mem _
      (List.mem_filter.mpr ⟨hx, by simpa using half_lt_self hpos⟩)
  rw [hnil] at hxin
  simp at hxin

lemma min?_isSome_of_ne_nil (l : List ℚ) (h : l ≠ []) :
    ∃ a, l.min? = some a := by
  cases l with
  | nil => exact absurd rfl h
  | cons a t => exact ⟨t.foldl min a, rfl⟩

lemma max?_isSome_of_ne_nil (l : List ℚ) (h : l ≠ []) :
    ∃ a, l.max? = some a := by
  cases l with
  | nil => exact absurd rfl h
  | cons a t => exact ⟨t.foldl max a, rfl⟩

/-- Building a filconv result from its three intermediate lookups. -/
lemma filconv_eq_some (lfil ffil l0 f0 : List ℚ) (c mx a b : ℚ)
    (hmx : ffil.max? = some mx)
    (hmin : (filconvSel lfil ffil mx).min? = some a)
    (hmax : (filconvSel lfil ffil mx).max? = some b) :
    filconv lfil ffil l0 f0 c
      = some ((b + a) / 2, filconvFnu lfil ffil l0 f0 c) := by
  unfold filconv
  rw [hmx]
  simp only []
  rw [hmin, hmax]

/-- Destructing a successful filconv call into its intermediate lookups. -/
lemma filconv_some_inv (lfil ffil l0 f0 : List ℚ) (c : ℚ) (p : ℚ × ℚ)
    (h : filconv lfil ffil l0 f0 c = some p) :
    ∃ mx a b, ffil.max? = some mx ∧
      (filconvSel lfil ffil mx).min? = some a ∧
      (filconvSel lfil ffil mx).max? = some b ∧
      p = ((b + a) / 2, filconvFnu lfil ffil l0 f0 c) := by
  unfold filconv at h
  cases hmx : ffil.max? with
  | none => rw [hmx] at h; simp at h
  | some mx =>
    rw [hmx] at h
    simp only [] at h
    cases hmin : (filconvSel lfil ffil mx).min? with
    | none => rw [hmin] at h; simp at h
    | some a =>
      rw [hmin] at h
      cases hmax : (filconvSel lfil ffil mx).max? with
      | none => rw [hmax] at h; simp at h
      | some b =>
        rw [hmax] at h
        simp only [Option.some_inj] at h
        exact ⟨mx, a, b, rfl, hmin, hmax, h.symm⟩

/-! ## Theorems -/

/-- C1: the combined spectrum is the inverse-variance weighted average of
the per-dither spectra: at every wavelength index ii with all per-dither
uncertainties nonzero, `flux_combine ii` equals the sum over dithers of
`flux[d, ii] / flux_err[d, ii]^2` divided by the sum over dithers of
`1 / flux_err[d, ii]^2`. -/
theorem C1_flux_combine_inverse_variance (nd : ℕ) (flux flux_err : ℕ → ℕ → ℚ)
    (ii : ℕ) (he : ∀ d < nd, flux_err d ii ≠ 0) :
    flux_combine nd flux flux_err ii =
      (∑ d ∈ Finset.range nd, flux d ii / flux_err d ii ^ 2) /
        (∑ d ∈ Finset.range nd, 1 / flux_err d ii ^ 2) := by
  unfold flux_combine
  congr 1
  exact Finset.sum_congr rfl (fun d _ => by rw [mul_one])

/-- Witness for C1 at nd = 2 dithers with concrete arrays. -/
theorem C1_flux_combine_inverse_variance_witness :
    (∀ d < 2, (fun _ _ => (2 : ℚ)) d 0 ≠ 0) ∧
    flux_combine 2 (fun d _ => (d : ℚ)) (fun _ _ => (2 : ℚ)) 0 =
      (∑ d ∈ Finset.range 2, (d : ℚ) / (2 : ℚ) ^ 2) /
        (∑ d ∈ Finset.range 2, 1 / (2 : ℚ) ^ 2) := by
  refine ⟨fun d _ => by norm_num, ?_⟩
  exact C1_flux_combine_inverse_variance 2 _ _ 0 (fun d _ => by norm_num)

/-- C4: for every filter, the notebook writes the combined spectrum with
format tabular-fits and overwrite=True, where the written Spectrum
has the reference wavelength grid as spectral axis, `flux_combine * Cnorm`
as flux, and `StdDevUncertainty(flux_err_combine * Cnorm)` as uncertainty:
the same normalization constant scales the flux and the standard-deviation
uncertainty. -/
theorem C4_write_normalized_spectrum (file_1d : String)
    (wave fluxCombineArr fluxErrCombineArr : List ℚ) (cnorm : ℚ) :
    (writeNormalizedSpectrum file_1d wave fluxCombineArr fluxErrCombineArr
      cnorm).format = "tabular-fits" ∧
    (writeNormalizedSpectrum file_1d wave fluxCombineArr fluxErrCombineArr
      cnorm).overwrite = true ∧
    (writeNormalizedSpectrum file_1d wave fluxCombineArr fluxErrCombineArr
      cnorm).spec.spectral_axis = wave ∧
    (writeNormalizedSpectrum file_1d wave fluxCombineArr fluxErrCombineArr
      cnorm).spec.flux = fluxCombineArr.map (fun v => v * cnorm) ∧
    (writeNormalizedSpectrum file_1d wave fluxCombineArr fluxErrCombineArr
      cnorm).spec.uncertainty = Uncertainty.StdDevUncertainty
        (fluxErrCombineArr.map (fun v => v * cnorm)) :=
  ⟨rfl, rfl, rfl, rfl, rfl⟩

/-- C6: both table-of-contents YAML files are lists of parts in which
every part carries a caption and every chapter entry carries both a file
and a title field. -/
theorem C6_toc_files_well_formed :
    tocWellFormed tocMain = true ∧ tocWellFormed tocDocs = true :=
  ⟨by decide, by decide⟩

/-- C7: in the redshift-fitting notebook, the optional manual subset
selection is guarded by a try/except block (the handler merely flips the
narrative flag), so some notebook in the repository guards an optional
step with try/except. -/
theorem C7_try_except_guards_optional_step :
    ∃ s ∈ subsetSelectionCell, isTryExcept s = true := by decide

/-- C10: the combined flux is a convex combination of the per-dither
fluxes: at every wavelength index ii where every per-dither uncertainty is
positive, `flux_combine ii` lies between the minimum and the maximum over
dithers of `flux[d, ii]`. -/
theorem C10_flux_combine_between_min_and_max (nd : ℕ)
    (flux flux_err : ℕ → ℕ → ℚ) (ii : ℕ)
    (hne : (Finset.range nd).Nonempty)
    (he : ∀ d < nd, 0 < flux_err d ii) :
    (Finset.range nd).inf' hne (fun d => flux d ii) ≤
        flux_combine nd flux flux_err ii ∧
      flux_combine nd flux flux_err ii ≤
        (Finset.range nd).sup' hne (fun d => flux d ii) := by
  have hw : ∀ d ∈ Finset.range nd, 0 < 1 / flux_err d ii ^ 2 := by
    intro d hd
    have := he d (Finset.mem_range.mp hd)
    positivity
  have hS : 0 < ∑ d ∈ Finset.range nd, 1 / flux_err d ii ^ 2 :=
    Finset.sum_pos hw hne
  have hnum : (∑ d ∈ Finset.range nd, flux d ii * 1 / flux_err d ii ^ 2)
      = ∑ d ∈ Finset.range nd, flux d ii * (1 / flux_err d ii ^ 2) :=
    Finset.sum_congr rfl (fun d _ => by ring)
  constructor
  · unfold flux_combine
    rw [le_div_iff₀ hS, hnum, Finset.mul_sum]
    apply Finset.sum_le_sum
    intro d hd
    exact mul_le_mul_of_nonneg_right (Finset.inf'_le _ hd) (le_of_lt (hw d hd))
  · unfold flux_combine
    rw [div_le_iff₀ hS, hnum, Finset.mul_sum]
    apply Finset.sum_le_sum
    intro d hd
    exact mul_le_mul_of_nonneg_right
      (Finset.le_sup' (fun d => flux d ii) hd) (le_of_lt (hw d hd))

/-- Witness for C10 at nd = 2 dithers with concrete arrays. -/
theorem C10_flux_combine_between_min_and_max_witness :
    (∀ d < 2, (0 : ℚ) < (fun _ _ => (1 : ℚ)) d 0) ∧
    ((Finset.range 2).inf' ⟨0, by decide⟩
        (fun d => (fun d _ => (d : ℚ)) d 0) ≤
      flux_combine 2 (fun d _ => (d : ℚ)) (fun _ _ => (1 : ℚ)) 0 ∧
    flux_combine 2 (fun d _ => (d : ℚ)) (fun _ _ => (1 : ℚ)) 0 ≤
      (Finset.range 2).sup' ⟨0, by decide⟩
        (fun d => (fun d _ => (d : ℚ)) d 0)) :=
  ⟨fun _ _ => by norm_num,
   C10_flux_combine_between_min_and_max 2 _ _ 0 ⟨0, by decide⟩
     (fun _ _ => by norm_num)⟩

/-- C2: filconv returns as first component lcen, the midpoint of the
full-width-at-half-maximum interval of the filter: for a filter response with a
maximum mx > 0 (and matching wavelength array), lcen is (min + max) / 2
over the wavelengths whose response strictly exceeds half the maximum. -/
theorem C2_filconv_lcen_is_fwhm_midpoint (lfil ffil l0 f0 : List ℚ)
    (c mx : ℚ) (hlen : lfil.length = ffil.length)
    (hmx : ffil.max? = some mx) (hpos : 0 < mx) :
    ∃ lo hi fnu, (fwhmWavelengths lfil ffil mx).min? = some lo ∧
      (fwhmWavelengths lfil ffil mx).max? = some hi ∧
      filconv lfil ffil l0 f0 c = some ((lo + hi) / 2, fnu) := by
  have hne := filconvSel_ne_nil lfil ffil mx hlen hmx hpos
  obtain ⟨a, ha⟩ := min?_isSome_of_ne_nil _ hne
  obtain ⟨b, hb⟩ := max?_isSome_of_ne_nil _ hne
  refine ⟨a, b, filconvFnu lfil ffil l0 f0 c, ?_, ?_, ?_⟩
  · rw [← filconvSel_eq_fwhmWavelengths]; exact ha
  · rw [← filconvSel_eq_fwhmWavelengths]; exact hb
  · rw [filconv_eq_some lfil ffil l0 f0 c mx a b hmx ha hb, add_comm b a]

/-- Witness for C2 on a one-point filter curve. -/
theorem C2_filconv_lcen_is_fwhm_midpoint_witness :
    ([(2 : ℚ)].length = [(1 : ℚ)].length) ∧
    ([(1 : ℚ)].max? = some 1) ∧ ((0 : ℚ) < 1) ∧
    (∃ lo hi fnu, (fwhmWavelengths [2] [1] 1).min? = some lo ∧
      (fwhmWavelengths [2] [1] 1).max? = some hi ∧
      filconv [2] [1] [] [] 1 = some ((lo + hi) / 2, fnu)) :=
  ⟨rfl, rfl, by norm_num,
   C2_filconv_lcen_is_fwhm_midpoint [2] [1] [] [] 1 1 rfl rfl (by norm_num)⟩

/-- C9: filconv is total on its guarded edge case: for a non-empty filter
curve with positive maximum the half-maximum selection is non-empty, so
lcen is always defined and filconv returns a value for every spectrum;
and on an empty spectrum it takes the else branch and returns fnu = 0. -/
theorem C9_filconv_total_and_empty_spectrum (lfil ffil : List ℚ) (mx : ℚ)
    (hlen : lfil.length = ffil.length) (hmx : ffil.max? = some mx)
    (hpos : 0 < mx) :
    (∀ l0 f0 c, ∃ p, filconv lfil ffil l0 f0 c = some p) ∧
    (∀ c, ∃ lc, filconv lfil ffil [] [] c = some (lc, 0)) := by
  have hne := filconvSel_ne_nil lfil ffil mx hlen hmx hpos
  obtain ⟨a, ha⟩ := min?_isSome_of_ne_nil _ hne
  obtain ⟨b, hb⟩ := max?_isSome_of_ne_nil _ hne
  constructor
  · intro l0 f0 c
    exact ⟨_, filconv_eq_some lfil ffil l0 f0 c mx a b hmx ha hb⟩
  · intro c
    refine ⟨(b + a) / 2, ?_⟩
    rw [filconv_eq_some lfil ffil [] [] c mx a b hmx ha hb]
    simp [filconvFnu]

/-- Witness for C9 on a one-point filter curve. -/
theorem C9_filconv_total_and_empty_spectrum_witness :
    ([(3 : ℚ)].length = [(2 : ℚ)].length) ∧
    ([(2 : ℚ)].max? = some 2) ∧ ((0 : ℚ) < 2) ∧
    ((∀ l0 f0 c, ∃ p, filconv [3] [2] l0 f0 c = some p) ∧
     (∀ c, ∃ lc, filconv [3] [2] [] [] c = some (lc, 0))) :=
  ⟨rfl, rfl, by norm_num,
   C9_filconv_total_and_empty_spectrum [3] [2] 2 rfl rfl (by norm_num)⟩

/-- C3: filconv is homogeneous in its spectrum-flux argument (scaling the
flux by k keeps lcen and scales fnu by k), so normalizing by
Cnorm = catalog_flux / fnu and convolving again with the same filter over
the same wavelength mask reproduces exactly the catalog flux. -/
theorem C3_filconv_homogeneity_and_normalization (lfil ffil l0 f0 : List ℚ)
    (c cat lc fnu : ℚ)
    (h : filconv lfil ffil l0 f0 c = some (lc, fnu)) :
    (∀ k, filconv lfil ffil l0 (f0.map (fun v => k * v)) c
        = some (lc, k * fnu)) ∧
    (fnu ≠ 0 → filconv lfil ffil l0 (f0.map (fun v => Cnorm cat fnu * v)) c
        = some (lc, cat)) := by
  obtain ⟨mx, a, b, hmx, hmin, hmax, hp⟩ :=
    filconv_some_inv lfil ffil l0 f0 c (lc, fnu) h
  have hlc : lc = (b + a) / 2 := congrArg Prod.fst hp
  have hfnu : fnu = filconvFnu lfil ffil l0 f0 c := congrArg Prod.snd hp
  have hk : ∀ k, filconv lfil ffil l0 (f0.map (fun v => k * v)) c
      = some (lc, k * fnu) := by
    intro k
    rw [filconv_eq_some lfil ffil l0 _ c mx a b hmx hmin hmax,
      filconvFnu_smul, ← hfnu, hlc]
  refine ⟨hk, fun hne => ?_⟩
  rw [hk (Cnorm cat fnu)]
  unfold Cnorm
  rw [div_mul_cancel₀ _ hne]

/-- Witness for C3 on a concrete filter and two-point spectrum whose
convolved flux is 1. -/
theorem C3_filconv_homogeneity_and_normalization_witness :
    filconv [0, 1, 2] [1, 1, 1] [1, 2] [1, 1] 1 = some (1, 1) ∧
    ((∀ k, filconv [0, 1, 2] [1, 1, 1] [1, 2]
        (([1, 1] : List ℚ).map (fun v => k * v)) 1 = some (1, k * 1)) ∧
     ((1 : ℚ) ≠ 0 → filconv [0, 1, 2] [1, 1, 1] [1, 2]
        (([1, 1] : List ℚ).map (fun v => Cnorm 5 1 * v)) 1 = some (1, 5))) := by
  have h : filconv [0, 1, 2] [1, 1, 1] [1, 2] [1, 1] 1 = some (1, 1) := by
    simp [filconv, filconvFnu, filconvSel, filtInt, maskSelect, elementwise,
      npInterp, simpson, basicSimpson, simpsonTerm, List.range_succ,
      List.max?, List.min?]
    norm_num
  exact ⟨h,
    C3_filconv_homogeneity_and_normalization [0, 1, 2] [1, 1, 1] [1, 2]
      [1, 1] 1 5 1 1 h⟩

/-- C8: the fnu returned by filconv does not depend on the speed-of-light
parameter c (for nonzero c): c multiplies the numerator integral I1 and is
divided out in fnu = I1 / I2 / c, so the result equals the one at the
default c = 3e18. -/
theorem C8_filconv_fnu_independent_of_c (lfil ffil l0 f0 : List ℚ) (c : ℚ)
    (hc : c ≠ 0) :
    filconv lfil ffil l0 f0 c = filconv lfil ffil l0 f0 cDefault := by
  unfold filconv
  cases hmx : ffil.max? with
  | none => rfl
  | some mx =>
    simp only []
    cases hmin : (filconvSel lfil ffil mx).min? with
    | none => rfl
    | some a =>
      cases hmax : (filconvSel lfil ffil mx).max? with
      | none => rfl
      | some b =>
        rw [filconvFnu_c_cancel lfil ffil l0 f0 c hc]

/-- Witness for C8 at c = 1. -/
theorem C8_filconv_fnu_independent_of_c_witness :
    ((1 : ℚ) ≠ 0) ∧
    filconv [0, 1, 2] [1, 1, 1] [1, 2] [1, 1] 1
      = filconv [0, 1, 2] [1, 1, 1] [1, 2] [1, 1] cDefault :=
  ⟨by norm_num,
   C8_filconv_fnu_independent_of_c [0, 1, 2] [1, 1, 1] [1, 2] [1, 1] 1
     (by norm_num)⟩

lemma getD_map_of_lt (f : ℚ → ℚ) (l : List ℚ) (i : ℕ) (hi : i < l.length) :
    (l.map f).getD i 0 = f (l.getD i 0) := by
  simp only [List.getD_eq_getElem?_getD, List.getElem?_map,
    List.getElem?_eq_getElem hi]
  simp

/-- C5: in the weighted spectral combination the wavelength grid of dither
0 is the reference grid; for every dither d > 0 the flux is resampled onto
the grid of dither 0 by np.interp, and the uncertainty is resampled as the
(nonnegative) square root of the linear interpolation of the squared
uncertainties, before the weighted average is taken. -/
theorem C5_dither_resampling (ds : List DitherData) (wave : List ℚ)
    (flux err : List (List ℚ))
    (h : loadDithersOk ds wave flux err = true) :
    wave = (ds.getD 0 ⟨[], [], []⟩).wavelength ∧
    ∀ d, 0 < d → d < ds.length →
      flux.getD d [] = wave.map (fun w =>
        npInterp w ((ds.getD d ⟨[], [], []⟩).wavelength.zip
          (ds.getD d ⟨[], [], []⟩).flux)) ∧
      ∀ i < wave.length,
        0 ≤ (err.getD d []).getD i 0 ∧
        (err.getD d []).getD i 0 ^ 2 = npInterp (wave.getD i 0)
          ((ds.getD d ⟨[], [], []⟩).wavelength.zip
            ((ds.getD d ⟨[], [], []⟩).uncertainty.map (fun e => e ^ 2))) := by
  cases ds with
  | nil => simp [loadDithersOk] at h
  | cons d0 rest =>
    unfold loadDithersOk at h
    simp only [Bool.and_eq_true, List.all_eq_true, decide_eq_true_eq,
      Bool.or_eq_true] at h
    obtain ⟨⟨⟨⟨⟨⟨⟨hwave, hfl⟩, hel⟩, hl0⟩, hu0⟩, hflux0⟩, herr0⟩, hall⟩ := h
    constructor
    · exact hwave
    · intro d hd0 hdlen
      have hmem : d ∈ List.range (d0 :: rest).length := List.mem_range.mpr hdlen
      have hda := hall d hmem
      rcases hda with hzero | hres
      · omega
      · obtain ⟨hfd, hsq⟩ := hres
        constructor
        · rw [hfd]; rfl
        · intro i hi
          unfold isSqrtOf at hsq
          simp only [Bool.and_eq_true, List.all_eq_true, decide_eq_true_eq]
            at hsq
          obtain ⟨hlen2, hallsq⟩ := hsq
          have hvarlen : (resampleVariance wave
              ((d0 :: rest).getD d ⟨[], [], []⟩)).length = wave.length := by
            unfold resampleVariance
            simp
          have himem : i ∈ List.range (resampleVariance wave
              ((d0 :: rest).getD d ⟨[], [], []⟩)).length := by
            rw [hvarlen]; exact List.mem_range.mpr hi
          obtain ⟨hnn, heq⟩ := hallsq i himem
          refine ⟨hnn, ?_⟩
          rw [heq]
          unfold resampleVariance
          rw [getD_map_of_lt _ wave i hi]

/-- Witness for C5: two dithers on the grid [0, 1]; the variances of the
second dither are perfect squares, so its stored uncertainty row is
exactly representable. -/
theorem C5_dither_resampling_witness :
    loadDithersOk [⟨[0, 1], [1, 2], [1, 1]⟩, ⟨[0, 1], [3, 5], [2, 2]⟩]
      [0, 1] [[1, 2], [3, 5]] [[1, 1], [2, 2]] = true ∧
    ([(0 : ℚ), 1] = (([⟨[0, 1], [1, 2], [1, 1]⟩,
        ⟨[0, 1], [3, 5], [2, 2]⟩] : List DitherData).getD 0
          ⟨[], [], []⟩).wavelength ∧
     ∀ d, 0 < d → d < ([⟨[0, 1], [1, 2], [1, 1]⟩,
        ⟨[0, 1], [3, 5], [2, 2]⟩] : List DitherData).length →
      ([[(1 : ℚ), 2], [3, 5]].getD d [] = [(0 : ℚ), 1].map (fun w =>
        npInterp w ((([⟨[0, 1], [1, 2], [1, 1]⟩,
          ⟨[0, 1], [3, 5], [2, 2]⟩] : List DitherData).getD d
            ⟨[], [], []⟩).wavelength.zip
          (([⟨[0, 1], [1, 2], [1, 1]⟩,
          ⟨[0, 1], [3, 5], [2, 2]⟩] : List DitherData).getD d
            ⟨[], [], []⟩).flux)) ∧
      ∀ i < [(0 : ℚ), 1].length,
        0 ≤ ([[(1 : ℚ), 1], [2, 2]].getD d []).getD i 0 ∧
        ([[(1 : ℚ), 1], [2, 2]].getD d []).getD i 0 ^ 2 =
          npInterp ([(0 : ℚ), 1].getD i 0)
          ((([⟨[0, 1], [1, 2], [1, 1]⟩,
          ⟨[0, 1], [3, 5], [2, 2]⟩] : List DitherData).getD d
            ⟨[], [], []⟩).wavelength.zip
            ((([⟨[0, 1], [1, 2], [1, 1]⟩,
          ⟨[0, 1], [3, 5], [2, 2]⟩] : List DitherData).getD d
            ⟨[], [], []⟩).uncertainty.map (fun e => e ^ 2))))) := by
  have h : loadDithersOk [⟨[0, 1], [1, 2], [1, 1]⟩, ⟨[0, 1], [3, 5], [2, 2]⟩]
      [0, 1] [[1, 2], [3, 5]] [[1, 1], [2, 2]] = true := by
    simp [loadDithersOk, resampleFlux, resampleVariance, isSqrtOf,
      npInterp, List.range_succ]
    norm_num
  exact ⟨h, C5_dither_resampling _ _ _ _ h⟩

end Jdat
